import Mathlib

/-!
Verification of the `pydatras` DATRAS download client
(`src/pydatras/__init__.py`) against its specification.

The module is a thin SOAP client: every fetch method
  1. returns early when the SOAP client could not be constructed,
  2. wraps scalar arguments into singleton lists,
  3. expands the cartesian product of the (listified) filter dimensions,
  4. optionally refuses to run when the product exceeds `download_limits`,
  5. issues one remote call per combination inside `try/except: pass`,
     appending every successful non-`None` serialized response,
  6. strips whitespace on the object-dtype (string) columns of the
     aggregated table and returns it, printing a `downloaded out of total`
     summary line.

The embedding models the remote service as an oracle (`DatrasService`):
for each combination the remote call either raises an exception, returns
`None`, or returns a serialized list of rows.  Each method is a pure
function from the client state, the arguments and the oracles to a
result record: the returned value (`none` models Python's bare
`return`; `getHLdata` can also end in an uncaught `AttributeError`),
the list of printed lines, and the trace of remote calls issued, in
order.
-/

/-- A value of a dataframe cell: serialized SOAP records carry strings
and numbers; each column of a serialized response is homogeneously
typed, `object` dtype meaning a column of strings. -/
inductive Cell where
  | cs : String → Cell
  | ci : Int → Cell
deriving DecidableEq, Repr

/-- A serialized record: field name to cell value, in field order. -/
abbrev Row := List (String × Cell)

/-- The aggregated dataframe, as the ordered list of its rows. -/
abbrev Table := List Row

/-- Whether a cell holds a string. -/
def Cell.isStr : Cell → Bool
  | .cs _ => true
  | .ci _ => false

/-- Outcome of one remote SOAP call, as observed by the `try/except`
blocks of the Python code: the call raises, returns `None`, or returns
a value whose `serialize_object` form is a list of records. -/
inductive CallResult where
  | exn : CallResult
  | nodata : CallResult
  | ok : Table → CallResult

/-- Whether the call succeeded with a non-`None` payload (the branch of
the loop body that appends the data and increments `downloaded`). -/
def CallResult.isOk : CallResult → Bool
  | .ok _ => true
  | _ => false

/-- The rows a call contributes to the aggregated dataframe: the
serialized response on success, nothing when the call raised or
returned `None`. -/
def CallResult.contrib : CallResult → Table
  | .ok rows => rows
  | _ => []

/-- An argument that Python receives either as a scalar or as a list;
the methods normalize it with `if not isinstance(x, list): x = [x]`. -/
inductive PyArg (α : Type) where
  | scalar : α → PyArg α
  | listArg : List α → PyArg α

/-- The listified form of an argument, mirroring the
`if not isinstance(x, list): x = [x]` normalization. -/
def PyArg.listify {α : Type} : PyArg α → List α
  | .scalar a => [a]
  | .listArg l => l

/-- The `itertools.product` of two argument lists, in iteration order
(rightmost dimension varies fastest). -/
def product2 {α β : Type} (xs : List α) (ys : List β) : List (α × β) :=
  xs.flatMap (fun x => ys.map (fun y => (x, y)))

/-- The `itertools.product` of three argument lists, in iteration order
(rightmost dimension varies fastest). -/
def product3 {α β γ : Type} (xs : List α) (ys : List β) (zs : List γ) :
    List (α × β × γ) :=
  xs.flatMap (fun x => ys.flatMap (fun y => zs.map (fun z => (x, y, z))))

/-- The datras side of the client object: one oracle per remote
endpoint the implemented methods consume.  An oracle value records, for
each possible argument tuple, how the remote call would end. -/
structure DatrasService where
  getHHdata : String → Int → Int → CallResult
  getHLdata : String → Int → Int → CallResult
  getSurveyList : CallResult
  getSurveyYearList : String → CallResult
  getSurveyYearQuarterList : String → Int → CallResult

/-- Outcome of one WORMS `getAphiaNameByID` lookup, as observed by the
inner `try/except` of the species-translation loop of `getHLdata`: the
call raises, or answers a name. -/
inductive WormsResult where
  | exn : WormsResult
  | name : String → WormsResult

/-- The worms side of the client object: the Aphia-name oracle consumed
by `getHLdata` when `translate_sps=True`. -/
structure WormsService where
  getAphiaNameByID : Cell → WormsResult

/-- The state of a `DATRASClient` instance that the fetch methods read:
the download limit from the constructor, the datras SOAP client and the
worms SOAP client, each `none` when `Client(url)` raised in the
corresponding setter. -/
structure DATRASClient where
  download_limits : Int
  datras_client : Option DatrasService
  worms_client : Option WormsService

/-- Observable outcome of one method invocation: the value returned to
the caller (`none` for Python's bare `return`), the printed lines in
order, and the remote calls issued, in order, keyed by their argument
tuples. -/
structure MethodResult (κ : Type) where
  retval : Option Table
  prints : List String
  calls : List κ
deriving Repr

/-- One iteration of the download loop body applied to the observed
call outcome: `except: pass` keeps the accumulator, a `None` response
is skipped, and a successful response is appended while `downloaded`
is incremented; the call itself is always recorded in the trace. -/
def fetchStep {κ : Type} (acc : Table × Nat × List κ) (d : κ) :
    CallResult → Table × Nat × List κ
  | .exn => (acc.1, acc.2.1, acc.2.2 ++ [d])
  | .nodata => (acc.1, acc.2.1, acc.2.2 ++ [d])
  | .ok rows => (acc.1 ++ rows, acc.2.1 + 1, acc.2.2 ++ [d])

/-- The `for dataset in datasets:` download loop shared by the fetch
methods: starting from an empty dataframe and `downloaded = 0`, each
combination is tried once, in order. -/
def fetchLoop {κ : Type} (call : κ → CallResult) (datasets : List κ) :
    Table × Nat × List κ :=
  datasets.foldl (fun acc d => fetchStep acc d (call d)) ([], 0, [])

/-- Python `str.strip` whitespace: the characters stripped by `str.strip()`
with no argument (ASCII part). -/
def pySpace (c : Char) : Bool :=
  c = ' ' || c = '\t' || c = '\n' || c = '\r' || c = '\x0b' || c = '\x0c'

/-- Python `str.strip()` on the character list: drop the whitespace
prefix, then the whitespace suffix. -/
def stripChars (l : List Char) : List Char :=
  ((l.dropWhile pySpace).reverse.dropWhile pySpace).reverse

/-- Python `str.strip()`: leading and trailing whitespace removed. -/
def pyStrip (s : String) : String :=
  ⟨stripChars s.data⟩

/-- The `x.str.strip()` action on one cell: strings are stripped,
anything else passes through. -/
def stripCell : Cell → Cell
  | .cs s => .cs (pyStrip s)
  | c => c

/-- The cells appearing in column `c` of the table. -/
def colCells (t : Table) (c : String) : List Cell :=
  t.filterMap (fun r => r.lookup c)

/-- Whether column `c` of `t` has `object` dtype, i.e. is a column of
strings: the columns `select_dtypes(['object'])` picks out. -/
def isObjectCol (t : Table) (c : String) : Bool :=
  (colCells t c).all Cell.isStr

/-- The cleanup action on one field of a row: fields of the selected
string columns are stripped, other fields are untouched. -/
def cleanPair (t : Table) (p : String × Cell) : String × Cell :=
  if isObjectCol t p.1 then (p.1, stripCell p.2) else p

/-- The dataframe cleanup block shared by all methods:
`string_fields = downloaded_data.select_dtypes(['object'])` followed by
`downloaded_data[string_fields.columns] = string_fields.apply(lambda x: x.str.strip())`.
The unassigned `reset_index()` call has no effect and is not modelled. -/
def cleanTable (t : Table) : Table :=
  t.map (fun r => r.map (cleanPair t))

/-- The field of `t` at row `i`, position `j`. -/
def cellAt (t : Table) (i j : Nat) : Option (String × Cell) :=
  t[i]?.bind (fun r => r[j]?)

/-- The first line printed when the download limit blocks a request. -/
def limitLine1 (limits : Int) : String :=
  "Data download is limited to " ++ toString limits ++ " datasets."

/-- The second line printed when the download limit blocks a request. -/
def limitLine2 (n : Nat) : String :=
  "Your are trying to download " ++ toString n ++ " datasets. Exiting"

/-- The summary line `"%i out of %i Datasets downloaded"`. -/
def countLineDatasets (d total : Nat) : String :=
  toString d ++ " out of " ++ toString total ++ " Datasets downloaded"

/-- The summary line `"%i out of %i surveys downloaded"` of
`getSurveyYearList`. -/
def countLineSurveys (d total : Nat) : String :=
  toString d ++ " out of " ++ toString total ++ " surveys downloaded"

/-- The line printed by every method when the SOAP client is unset. -/
def noClientLine : String := "DATRAS client not set"

/-- The line `getHLdata` prints when `translate_sps=True` but the WORMS
client is unset. -/
def wormsUnavailableLine : String :=
  "WORMS web service not available. Cannot resolve Aphia codes into species"

/-- Value flow out of `getHLdata`: a Python `return` (bare, or carrying
the dataframe), or the uncaught `AttributeError` raised at
`downloaded_data.Valid_Aphia` (line 220) when the aggregated frame has
no `Valid_Aphia` column, which propagates to the caller. -/
inductive PyResult where
  | ret : Option Table → PyResult
  | attrError : PyResult
deriving DecidableEq, Repr

/-- Whether the invocation handed a dataframe back to the caller. -/
def PyResult.returnsFrame : PyResult → Bool
  | .ret (some _) => true
  | _ => false

/-- Observable outcome of one `getHLdata` invocation: the value flow,
the printed lines in order, the DATRAS calls issued and the WORMS
lookups issued, in order. -/
structure HLResult where
  outcome : PyResult
  prints : List String
  calls : List (String × Int × Int)
  wormsCalls : List Cell
deriving Repr

/-- Whether the aggregated frame has a column `c`: appending serialized
records gives the frame the union of their field names as columns, and
the freshly constructed frame has none. -/
def hasColumn (t : Table) (c : String) : Bool :=
  t.any (fun r => (r.lookup c).isSome)

/-- The values of column `c`, in row order, over the rows carrying the
field (every serialized HL record carries `Valid_Aphia` when any does,
the DATRAS HL schema being uniform). -/
def colValues (t : Table) (c : String) : List Cell :=
  t.filterMap (fun r => r.lookup c)

/-- `pandas.Series.unique`: the distinct values in order of first
appearance. -/
def uniqueFirst (l : List Cell) : List Cell :=
  l.foldl (fun acc a => if a ∈ acc then acc else acc ++ [a]) []

/-- The name recorded for one Aphia lookup: the service answer, or the
`No data` fallback installed by the surrounding `except` branch. -/
def wormsName : WormsResult → String
  | .exn => "No data"
  | .name nm => nm

/-- The `names` frame built by the translation loop: one
`(Valid_Aphia, Species_Name)` row per unique code, in code order. -/
def aphiaNames (w : WormsService) (codes : List Cell) :
    List (Cell × String) :=
  codes.map (fun code => (code, wormsName (w.getAphiaNameByID code)))

/-- Rendering of `print(codes)`; the exact numpy array text is
abstracted by the Lean representation of the code list, no claim
depending on this text. -/
def codesLine (codes : List Cell) : String :=
  toString (repr codes)

/-- Rendering of `print(code, name)`; the exact Python text of the code
is abstracted by its Lean representation, no claim depending on it. -/
def codeNameLine (code : Cell) (nm : String) : String :=
  toString (repr code) ++ " " ++ nm

/-- The call `pd.merge(downloaded_data, names, on='Valid_Aphia')`: an
inner join on the `Valid_Aphia` key preserving left row order and
appending the matching `Species_Name` column; a row without the key
(impossible when every serialized record carries the field) has no
match and is dropped. -/
def speciesMerge (t : Table) (names : List (Cell × String)) : Table :=
  t.filterMap (fun r =>
    match r.lookup "Valid_Aphia" with
    | none => none
    | some code =>
      match names.lookup code with
      | none => none
      | some nm => some (r ++ [("Species_Name", Cell.cs nm)]))

/-- Lines 214-243 of `getHLdata`, after the download loop: print the
summary line; with `translate_sps=True` either print that WORMS is
unavailable, or read `downloaded_data.Valid_Aphia` - an uncaught
`AttributeError` when the aggregated frame has no such column - then
resolve each unique code once (a raising lookup falling back to
`No data`), print each code with its name, and merge the species names
in; finally clean the frame and return it. -/
def translateHL (worms : Option WormsService) (translate_sps : Bool)
    (t : Table) (downloaded total : Nat)
    (calls : List (String × Int × Int)) : HLResult :=
  if translate_sps then
    match worms with
    | none =>
      ⟨.ret (some (cleanTable t)),
       [countLineDatasets downloaded total, wormsUnavailableLine],
       calls, []⟩
    | some w =>
      if hasColumn t "Valid_Aphia" then
        ⟨.ret (some (cleanTable (speciesMerge t
            (aphiaNames w (uniqueFirst (colValues t "Valid_Aphia")))))),
         [countLineDatasets downloaded total,
          codesLine (uniqueFirst (colValues t "Valid_Aphia"))] ++
           (aphiaNames w (uniqueFirst (colValues t "Valid_Aphia"))).map
             (fun p => codeNameLine p.1 p.2),
         calls, uniqueFirst (colValues t "Valid_Aphia")⟩
      else
        ⟨.attrError, [countLineDatasets downloaded total], calls, []⟩
  else
    ⟨.ret (some (cleanTable t)), [countLineDatasets downloaded total],
     calls, []⟩

/-- Model of `DATRASClient.getHHdata(survey, year, quarter, limit_download)`
(lines 100-160): client check, listification, cartesian expansion,
download-limit gate, best-effort download loop, cleanup, summary line.
The species-free HH path has no optional enrichment. -/
def DATRASClient.getHHdata (c : DATRASClient) (survey : PyArg String)
    (year : PyArg Int) (quarter : PyArg Int) (limit_download : Bool) :
    MethodResult (String × Int × Int) :=
  match c.datras_client with
  | none => ⟨none, [noClientLine], []⟩
  | some client =>
    if limit_download ∧
        ((product3 survey.listify year.listify quarter.listify).length : Int)
          > c.download_limits then
      ⟨none,
       [limitLine1 c.download_limits,
        limitLine2 (product3 survey.listify year.listify quarter.listify).length],
       []⟩
    else
      ⟨some (cleanTable
          (fetchLoop (fun d => client.getHHdata d.1 d.2.1 d.2.2)
            (product3 survey.listify year.listify quarter.listify)).1),
       [countLineDatasets
          (fetchLoop (fun d => client.getHHdata d.1 d.2.1 d.2.2)
            (product3 survey.listify year.listify quarter.listify)).2.1
          (product3 survey.listify year.listify quarter.listify).length],
       (fetchLoop (fun d => client.getHHdata d.1 d.2.1 d.2.2)
          (product3 survey.listify year.listify quarter.listify)).2.2⟩

/-- Model of `DATRASClient.getHLdata(survey, year, quarter,
translate_sps, limit_download)` (lines 162-243): client check,
listification, cartesian expansion, download-limit gate and best-effort
download loop as in `getHHdata`, then the summary print, the optional
Aphia-code translation through WORMS, cleanup and return
(see `translateHL` for the post-loop half). -/
def DATRASClient.getHLdata (c : DATRASClient) (survey : PyArg String)
    (year : PyArg Int) (quarter : PyArg Int) (translate_sps : Bool)
    (limit_download : Bool) : HLResult :=
  match c.datras_client with
  | none => ⟨.ret none, [noClientLine], [], []⟩
  | some client =>
    if limit_download ∧
        ((product3 survey.listify year.listify quarter.listify).length : Int)
          > c.download_limits then
      ⟨.ret none,
       [limitLine1 c.download_limits,
        limitLine2 (product3 survey.listify year.listify quarter.listify).length],
       [], []⟩
    else
      translateHL c.worms_client translate_sps
        (fetchLoop (fun d => client.getHLdata d.1 d.2.1 d.2.2)
          (product3 survey.listify year.listify quarter.listify)).1
        (fetchLoop (fun d => client.getHLdata d.1 d.2.1 d.2.2)
          (product3 survey.listify year.listify quarter.listify)).2.1
        (product3 survey.listify year.listify quarter.listify).length
        (fetchLoop (fun d => client.getHLdata d.1 d.2.1 d.2.2)
          (product3 survey.listify year.listify quarter.listify)).2.2

/-- Model of `DATRASClient.getSurveyList()` (lines 282-310): a single
remote call inside `try/except`; a raise prints an error and returns
`None`; `serialize_object(None)` fed to `pd.DataFrame` yields an empty
frame, so a `None` response builds an empty table. -/
def DATRASClient.getSurveyList (c : DATRASClient) : MethodResult Unit :=
  match c.datras_client with
  | none => ⟨none, [noClientLine], []⟩
  | some client =>
    match client.getSurveyList with
    | .exn => ⟨none, ["Cannot download survey list"], [()]⟩
    | .nodata => ⟨some (cleanTable []), ["Survey list downloaded"], [()]⟩
    | .ok rows => ⟨some (cleanTable rows), ["Survey list downloaded"], [()]⟩

/-- Model of `DATRASClient.getSurveyYearList(survey)` (lines 313-355):
no limit gate; one call per listified survey name. -/
def DATRASClient.getSurveyYearList (c : DATRASClient)
    (survey : PyArg String) : MethodResult String :=
  match c.datras_client with
  | none => ⟨none, [noClientLine], []⟩
  | some client =>
    ⟨some (cleanTable
        (fetchLoop client.getSurveyYearList survey.listify).1),
     [countLineSurveys
        (fetchLoop client.getSurveyYearList survey.listify).2.1
        survey.listify.length],
     (fetchLoop client.getSurveyYearList survey.listify).2.2⟩

/-- Model of `DATRASClient.getSurveyYearQuarterList(survey, year,
limit_download)` (lines 358-410): like `getHHdata` over the binary
product survey x year. -/
def DATRASClient.getSurveyYearQuarterList (c : DATRASClient)
    (survey : PyArg String) (year : PyArg Int) (limit_download : Bool) :
    MethodResult (String × Int) :=
  match c.datras_client with
  | none => ⟨none, [noClientLine], []⟩
  | some client =>
    if limit_download ∧
        ((product2 survey.listify year.listify).length : Int)
          > c.download_limits then
      ⟨none,
       [limitLine1 c.download_limits,
        limitLine2 (product2 survey.listify year.listify).length],
       []⟩
    else
      ⟨some (cleanTable
          (fetchLoop (fun d => client.getSurveyYearQuarterList d.1 d.2)
            (product2 survey.listify year.listify)).1),
       [countLineDatasets
          (fetchLoop (fun d => client.getSurveyYearQuarterList d.1 d.2)
            (product2 survey.listify year.listify)).2.1
          (product2 survey.listify year.listify).length],
       (fetchLoop (fun d => client.getSurveyYearQuarterList d.1 d.2)
          (product2 survey.listify year.listify)).2.2⟩

/-- The serialized response of a call that succeeded with a non-`None`
result, and `none` for a raised or empty call. -/
def CallResult.successRows : CallResult → Option Table
  | .ok rows => some rows
  | _ => none

/-- The relation `t is s with leading and trailing whitespace removed`:
`s` splits as whitespace, then `t`, then whitespace, and `t` itself
neither starts nor ends with whitespace. -/
def stripsWS (s t : String) : Prop :=
  (∃ pre post, (∀ c ∈ pre, pySpace c = true) ∧
      (∀ c ∈ post, pySpace c = true) ∧
      s.data = pre ++ t.data ++ post) ∧
  (∀ c, t.data.head? = some c → pySpace c = false) ∧
  (∀ c, t.data.getLast? = some c → pySpace c = false)

/-- Fixture row as the HH endpoint would serialize it, with padding. -/
def rowHH : Row := [("Survey", Cell.cs " SP-ARSA "), ("Year", Cell.ci 2010)]

/-- Fixture row as the HL endpoint would serialize it. -/
def rowHL : Row := [("Survey", Cell.cs "IBTS"), ("Year", Cell.ci 2011)]

/-- Fixture oracle: year 2010 succeeds, year 2011 raises, anything else
answers `None`; the other endpoints answer fixed values. -/
def svcFix : DatrasService where
  getHHdata := fun _ y _ =>
    if y = 2010 then .ok [rowHH] else if y = 2011 then .exn else .nodata
  getHLdata := fun _ _ _ => .ok [rowHL]
  getSurveyList := .ok [rowHH]
  getSurveyYearList := fun s => if s = "BAD" then .exn else .ok [rowHL]
  getSurveyYearQuarterList := fun _ _ => .nodata

/-- Fixture client with the default limit of five, a live DATRAS oracle
and no WORMS client. -/
def cFix : DATRASClient := ⟨5, some svcFix, none⟩

/-- Fixture client whose SOAP construction failed. -/
def cNone : DATRASClient := ⟨5, none, none⟩

/-- Fixture DATRAS oracle on which every remote call raises. -/
def svcRaise : DatrasService where
  getHHdata := fun _ _ _ => .exn
  getHLdata := fun _ _ _ => .exn
  getSurveyList := .exn
  getSurveyYearList := fun _ => .exn
  getSurveyYearQuarterList := fun _ _ => .exn

/-- Fixture WORMS oracle answering every Aphia lookup. -/
def wormsFix : WormsService where
  getAphiaNameByID := fun _ => .name "Undetermined"

/-- Fixture client with a live WORMS client and a DATRAS oracle whose
HL fetches all raise. -/
def cWorms : DATRASClient := ⟨5, some svcRaise, some wormsFix⟩

/-- Fixture table for the cleanup claim: one string column with padded
text and one integer column. -/
def tFix : Table := [[("Survey", Cell.cs "  X Y  "), ("Year", Cell.ci 7)]]

/-- Characterization of the download loop from any starting accumulator:
the loop appends exactly the successful contributions in dataset order,
counts the successful calls, and records every dataset once, in order. -/
theorem foldl_fetchStep {κ : Type} (call : κ → CallResult) (ds : List κ)
    (t : Table) (n : Nat) (cs : List κ) :
    ds.foldl (fun acc d => fetchStep acc d (call d)) (t, n, cs) =
      (t ++ ds.flatMap (fun d => (call d).contrib),
       n + ds.countP (fun d => (call d).isOk),
       cs ++ ds) := by
  induction ds generalizing t n cs with
  | nil => simp
  | cons d ds ih =>
    simp only [List.foldl_cons]
    cases h : call d with
    | exn =>
      show List.foldl _ (t, n, cs ++ [d]) ds = _
      rw [ih]
      simp [h, CallResult.contrib, CallResult.isOk, List.countP_cons,
        List.append_assoc]
    | nodata =>
      show List.foldl _ (t, n, cs ++ [d]) ds = _
      rw [ih]
      simp [h, CallResult.contrib, CallResult.isOk, List.countP_cons,
        List.append_assoc]
    | ok rows =>
      show List.foldl _ (t ++ rows, n + 1, cs ++ [d]) ds = _
      rw [ih]
      simp [h, CallResult.contrib, CallResult.isOk, List.countP_cons,
        List.append_assoc, Nat.add_assoc, Nat.add_comm, Nat.add_left_comm]

/-- The download loop in closed form. -/
theorem fetchLoop_spec {κ : Type} (call : κ → CallResult) (ds : List κ) :
    fetchLoop call ds =
      (ds.flatMap (fun d => (call d).contrib),
       ds.countP (fun d => (call d).isOk),
       ds) := by
  simpa [fetchLoop] using foldl_fetchStep call ds [] 0 []

/-- Counting the binary cartesian product. -/
theorem length_product2 {α β : Type} (xs : List α) (ys : List β) :
    (product2 xs ys).length = xs.length * ys.length := by
  induction xs with
  | nil => simp [product2]
  | cons x xs ih =>
    have hstep : product2 (x :: xs) ys =
        ys.map (fun y => (x, y)) ++ product2 xs ys := by
      simp [product2]
    rw [hstep, List.length_append, List.length_map, ih, List.length_cons]
    ring

/-- Counting the ternary cartesian product. -/
theorem length_product3 {α β γ : Type} (xs : List α) (ys : List β)
    (zs : List γ) :
    (product3 xs ys zs).length = xs.length * ys.length * zs.length := by
  induction xs with
  | nil => simp [product3]
  | cons x xs ih =>
    have hinner : ∀ (bs : List β),
        (bs.flatMap (fun y => zs.map (fun z => (x, y, z)))).length =
          bs.length * zs.length := by
      intro bs
      induction bs with
      | nil => simp
      | cons b bs ihb =>
        simp only [List.flatMap_cons, List.length_append, List.length_map,
          ihb, List.length_cons]
        ring
    have hstep : product3 (x :: xs) ys zs =
        ys.flatMap (fun y => zs.map (fun z => (x, y, z))) ++
          product3 xs ys zs := by
      simp [product3]
    rw [hstep, List.length_append, hinner, ih, List.length_cons]
    ring

/-- A head of a `dropWhile` result never satisfies the predicate. -/
theorem head?_dropWhile_false {α : Type} (p : α → Bool) (l : List α)
    (c : α) (h : (l.dropWhile p).head? = some c) : p c = false := by
  have hx := List.head?_dropWhile_not p l
  rw [h] at hx
  exact hx

/-- Dropping a prefix preserves the last element when anything is left. -/
theorem getLast?_dropWhile {α : Type} (p : α → Bool) (l : List α)
    (h : l.dropWhile p ≠ []) :
    (l.dropWhile p).getLast? = l.getLast? := by
  induction l with
  | nil => simp at h
  | cons a l ih =>
    by_cases hpa : p a
    · rw [List.dropWhile_cons_of_pos hpa] at h ⊢
      have hl : l ≠ [] := by
        intro hnil
        rw [hnil] at h
        simp at h
      cases l with
      | nil => exact absurd rfl hl
      | cons b l2 =>
        rw [List.getLast?_cons_cons]
        exact ih h
    · rw [List.dropWhile_cons_of_neg hpa]



/-- Python `str.strip()` removes exactly the leading and trailing
whitespace of its input. -/
theorem pyStrip_strips (s : String) : stripsWS s (pyStrip s) := by
  have hdata : (pyStrip s).data = stripChars s.data := rfl
  set l := s.data with hl
  set l1 := l.dropWhile pySpace with hl1
  set m := l1.reverse.dropWhile pySpace with hm
  have hstrip : stripChars l = m.reverse := rfl
  refine ⟨⟨l.takeWhile pySpace, (l1.reverse.takeWhile pySpace).reverse,
      ?_, ?_, ?_⟩, ?_, ?_⟩
  · intro c hc
    exact List.mem_takeWhile_imp hc
  · intro c hc
    exact List.mem_takeWhile_imp (List.mem_reverse.mp hc)
  · rw [hdata, hstrip]
    have h1 : l.takeWhile pySpace ++ l1 = l :=
      List.takeWhile_append_dropWhile pySpace l
    have h2 : l1.reverse.takeWhile pySpace ++ m = l1.reverse :=
      List.takeWhile_append_dropWhile pySpace l1.reverse
    have h3 : l1 = m.reverse ++ (l1.reverse.takeWhile pySpace).reverse := by
      have := congrArg List.reverse h2
      rw [List.reverse_append, List.reverse_reverse] at this
      exact this.symm
    calc l = l.takeWhile pySpace ++ l1 := h1.symm
      _ = l.takeWhile pySpace ++
            (m.reverse ++ (l1.reverse.takeWhile pySpace).reverse) := by
            rw [← h3]
      _ = l.takeWhile pySpace ++ m.reverse ++
            (l1.reverse.takeWhile pySpace).reverse := by
            rw [List.append_assoc]
  · intro c hc
    rw [hdata, hstrip, List.head?_reverse] at hc
    have hm_ne : m ≠ [] := by
      intro hnil
      rw [hnil] at hc
      simp at hc
    rw [getLast?_dropWhile pySpace l1.reverse hm_ne, List.getLast?_reverse]
      at hc
    exact head?_dropWhile_false pySpace l c hc
  · intro c hc
    rw [hdata, hstrip, List.getLast?_reverse] at hc
    exact head?_dropWhile_false pySpace l1.reverse c hc


/-- Reading a cell of the cleaned table. -/
theorem cellAt_cleanTable (t : Table) (i j : Nat) :
    cellAt (cleanTable t) i j = (cellAt t i j).map (cleanPair t) := by
  unfold cellAt cleanTable
  rw [List.getElem?_map]
  cases hti : t[i]? with
  | none => rfl
  | some r => simp

/-- Every fetch method bails out identically when the SOAP client is
unset: `getHHdata` case. -/
theorem getHHdata_eq_noclient (c : DATRASClient)
    (hc : c.datras_client = none) (s : PyArg String) (y q : PyArg Int)
    (lim : Bool) :
    c.getHHdata s y q lim = ⟨none, [noClientLine], []⟩ := by
  unfold DATRASClient.getHHdata
  rw [hc]

/-- Closed form of `getHHdata` when the download-limit gate fires. -/
theorem getHHdata_eq_blocked (c : DATRASClient) (client : DatrasService)
    (hc : c.datras_client = some client) (s : PyArg String)
    (y q : PyArg Int) (lim : Bool)
    (h : lim = true ∧
      ((product3 s.listify y.listify q.listify).length : Int)
        > c.download_limits) :
    c.getHHdata s y q lim =
      ⟨none,
       [limitLine1 c.download_limits,
        limitLine2 (product3 s.listify y.listify q.listify).length],
       []⟩ := by
  unfold DATRASClient.getHHdata
  rw [hc]
  show (if _ ∧ _ then _ else _) = _
  rw [if_pos h]

/-- Closed form of `getHHdata` when the download runs. -/
theorem getHHdata_eq_run (c : DATRASClient) (client : DatrasService)
    (hc : c.datras_client = some client) (s : PyArg String)
    (y q : PyArg Int) (lim : Bool)
    (h : ¬(lim = true ∧
      ((product3 s.listify y.listify q.listify).length : Int)
        > c.download_limits)) :
    c.getHHdata s y q lim =
      ⟨some (cleanTable ((product3 s.listify y.listify q.listify).flatMap
          (fun d => (client.getHHdata d.1 d.2.1 d.2.2).contrib))),
       [countLineDatasets
          ((product3 s.listify y.listify q.listify).countP
            (fun d => (client.getHHdata d.1 d.2.1 d.2.2).isOk))
          (product3 s.listify y.listify q.listify).length],
       product3 s.listify y.listify q.listify⟩ := by
  unfold DATRASClient.getHHdata
  rw [hc]
  show (if _ ∧ _ then _ else _) = _
  rw [if_neg h, fetchLoop_spec]

/-- Every fetch method bails out identically when the SOAP client is
unset: `getHLdata` case, for either value of `translate_sps`. -/
theorem getHLdata_eq_noclient (c : DATRASClient)
    (hc : c.datras_client = none) (s : PyArg String) (y q : PyArg Int)
    (ts lim : Bool) :
    c.getHLdata s y q ts lim = ⟨.ret none, [noClientLine], [], []⟩ := by
  unfold DATRASClient.getHLdata
  rw [hc]

/-- Closed form of `getHLdata` when the download-limit gate fires: the
gate sits before the translation branch, so `translate_sps` is
irrelevant. -/
theorem getHLdata_eq_blocked (c : DATRASClient) (client : DatrasService)
    (hc : c.datras_client = some client) (s : PyArg String)
    (y q : PyArg Int) (ts lim : Bool)
    (h : lim = true ∧
      ((product3 s.listify y.listify q.listify).length : Int)
        > c.download_limits) :
    c.getHLdata s y q ts lim =
      ⟨.ret none,
       [limitLine1 c.download_limits,
        limitLine2 (product3 s.listify y.listify q.listify).length],
       [], []⟩ := by
  unfold DATRASClient.getHLdata
  rw [hc]
  show (if _ ∧ _ then _ else _) = _
  rw [if_pos h]

/-- Closed form of `getHLdata` when the download runs: the loop output
in closed form, fed to the post-loop half. -/
theorem getHLdata_eq_run (c : DATRASClient) (client : DatrasService)
    (hc : c.datras_client = some client) (s : PyArg String)
    (y q : PyArg Int) (ts lim : Bool)
    (h : ¬(lim = true ∧
      ((product3 s.listify y.listify q.listify).length : Int)
        > c.download_limits)) :
    c.getHLdata s y q ts lim =
      translateHL c.worms_client ts
        ((product3 s.listify y.listify q.listify).flatMap
          (fun d => (client.getHLdata d.1 d.2.1 d.2.2).contrib))
        ((product3 s.listify y.listify q.listify).countP
          (fun d => (client.getHLdata d.1 d.2.1 d.2.2).isOk))
        (product3 s.listify y.listify q.listify).length
        (product3 s.listify y.listify q.listify) := by
  unfold DATRASClient.getHLdata
  rw [hc]
  show (if _ ∧ _ then _ else _) = _
  rw [if_neg h, fetchLoop_spec]

/-- The post-loop half of `getHLdata` with `translate_sps=False`: clean
the aggregate, print the summary line only, and return. -/
theorem translateHL_false (worms : Option WormsService) (t : Table)
    (d tot : Nat) (cs : List (String × Int × Int)) :
    translateHL worms false t d tot cs =
      ⟨.ret (some (cleanTable t)), [countLineDatasets d tot], cs, []⟩ :=
  rfl

/-- The post-loop half with `translate_sps=True` and no WORMS client:
print the summary and the unavailability lines, clean and return. -/
theorem translateHL_true_noworms (t : Table) (d tot : Nat)
    (cs : List (String × Int × Int)) :
    translateHL none true t d tot cs =
      ⟨.ret (some (cleanTable t)),
       [countLineDatasets d tot, wormsUnavailableLine], cs, []⟩ :=
  rfl

/-- The post-loop half with `translate_sps=True`, a live WORMS client
and an aggregate lacking the `Valid_Aphia` column: the summary is
printed and then the unguarded attribute access raises, so nothing is
returned. -/
theorem translateHL_true_nocol (w : WormsService) (t : Table)
    (d tot : Nat) (cs : List (String × Int × Int))
    (hcol : hasColumn t "Valid_Aphia" = false) :
    translateHL (some w) true t d tot cs =
      ⟨.attrError, [countLineDatasets d tot], cs, []⟩ := by
  unfold translateHL
  show (if hasColumn t "Valid_Aphia" = true then _ else _) = _
  rw [if_neg (by simp [hcol])]

/-- Whatever the translation branch does, the DATRAS call trace of the
invocation is the one produced by the download loop. -/
theorem translateHL_calls (worms : Option WormsService) (ts : Bool)
    (t : Table) (d tot : Nat) (cs : List (String × Int × Int)) :
    (translateHL worms ts t d tot cs).calls = cs := by
  unfold translateHL
  split
  · split
    · rfl
    · split
      · rfl
      · rfl
  · rfl

/-- Every fetch method bails out identically when the SOAP client is
unset: `getSurveyYearQuarterList` case. -/
theorem getSurveyYearQuarterList_eq_noclient (c : DATRASClient)
    (hc : c.datras_client = none) (s : PyArg String) (y : PyArg Int)
    (lim : Bool) :
    c.getSurveyYearQuarterList s y lim = ⟨none, [noClientLine], []⟩ := by
  unfold DATRASClient.getSurveyYearQuarterList
  rw [hc]

/-- Closed form of `getSurveyYearQuarterList` when the gate fires. -/
theorem getSurveyYearQuarterList_eq_blocked (c : DATRASClient)
    (client : DatrasService) (hc : c.datras_client = some client)
    (s : PyArg String) (y : PyArg Int) (lim : Bool)
    (h : lim = true ∧
      ((product2 s.listify y.listify).length : Int) > c.download_limits) :
    c.getSurveyYearQuarterList s y lim =
      ⟨none,
       [limitLine1 c.download_limits,
        limitLine2 (product2 s.listify y.listify).length],
       []⟩ := by
  unfold DATRASClient.getSurveyYearQuarterList
  rw [hc]
  show (if _ ∧ _ then _ else _) = _
  rw [if_pos h]

/-- Closed form of `getSurveyYearQuarterList` when the download runs. -/
theorem getSurveyYearQuarterList_eq_run (c : DATRASClient)
    (client : DatrasService) (hc : c.datras_client = some client)
    (s : PyArg String) (y : PyArg Int) (lim : Bool)
    (h : ¬(lim = true ∧
      ((product2 s.listify y.listify).length : Int) > c.download_limits)) :
    c.getSurveyYearQuarterList s y lim =
      ⟨some (cleanTable ((product2 s.listify y.listify).flatMap
          (fun d => (client.getSurveyYearQuarterList d.1 d.2).contrib))),
       [countLineDatasets
          ((product2 s.listify y.listify).countP
            (fun d => (client.getSurveyYearQuarterList d.1 d.2).isOk))
          (product2 s.listify y.listify).length],
       product2 s.listify y.listify⟩ := by
  unfold DATRASClient.getSurveyYearQuarterList
  rw [hc]
  show (if _ ∧ _ then _ else _) = _
  rw [if_neg h, fetchLoop_spec]

/-- Every fetch method bails out identically when the SOAP client is
unset: `getSurveyYearList` case. -/
theorem getSurveyYearList_eq_noclient (c : DATRASClient)
    (hc : c.datras_client = none) (s : PyArg String) :
    c.getSurveyYearList s = ⟨none, [noClientLine], []⟩ := by
  unfold DATRASClient.getSurveyYearList
  rw [hc]

/-- Closed form of `getSurveyYearList` (no limit gate). -/
theorem getSurveyYearList_eq_run (c : DATRASClient)
    (client : DatrasService) (hc : c.datras_client = some client)
    (s : PyArg String) :
    c.getSurveyYearList s =
      ⟨some (cleanTable (s.listify.flatMap
          (fun d => (client.getSurveyYearList d).contrib))),
       [countLineSurveys
          (s.listify.countP (fun d => (client.getSurveyYearList d).isOk))
          s.listify.length],
       s.listify⟩ := by
  unfold DATRASClient.getSurveyYearList
  rw [hc]
  show (⟨_, _, _⟩ : MethodResult String) = _
  rw [fetchLoop_spec]

/-- Every fetch method bails out identically when the SOAP client is
unset: `getSurveyList` case. -/
theorem getSurveyList_eq_noclient (c : DATRASClient)
    (hc : c.datras_client = none) :
    c.getSurveyList = ⟨none, [noClientLine], []⟩ := by
  unfold DATRASClient.getSurveyList
  rw [hc]



/-- C1: with `limit_download=True`, a request whose cartesian combination
count exceeds `download_limits` issues zero remote calls and returns
`None`, only printing messages, in `getHHdata`, `getHLdata` and
`getSurveyYearQuarterList`; otherwise the download proceeds (the loop
calls every combination and a dataframe is returned). -/
theorem claim1_limit_gate (c : DATRASClient) (client : DatrasService)
    (hc : c.datras_client = some client) (s : PyArg String)
    (y q : PyArg Int) (ts : Bool) :
    (((product3 s.listify y.listify q.listify).length : Int)
        > c.download_limits →
      c.getHHdata s y q true =
        ⟨none,
         [limitLine1 c.download_limits,
          limitLine2 (product3 s.listify y.listify q.listify).length],
         []⟩ ∧
      c.getHLdata s y q ts true =
        ⟨.ret none,
         [limitLine1 c.download_limits,
          limitLine2 (product3 s.listify y.listify q.listify).length],
         [], []⟩) ∧
    (((product3 s.listify y.listify q.listify).length : Int)
        ≤ c.download_limits →
      (c.getHHdata s y q true).retval.isSome = true ∧
      (c.getHHdata s y q true).calls =
        product3 s.listify y.listify q.listify ∧
      (c.getHLdata s y q false true).outcome.returnsFrame = true ∧
      (c.getHLdata s y q ts true).calls =
        product3 s.listify y.listify q.listify) ∧
    (((product2 s.listify y.listify).length : Int) > c.download_limits →
      c.getSurveyYearQuarterList s y true =
        ⟨none,
         [limitLine1 c.download_limits,
          limitLine2 (product2 s.listify y.listify).length],
         []⟩) ∧
    (((product2 s.listify y.listify).length : Int) ≤ c.download_limits →
      (c.getSurveyYearQuarterList s y true).retval.isSome = true ∧
      (c.getSurveyYearQuarterList s y true).calls =
        product2 s.listify y.listify) := by
  refine ⟨?_, ?_, ?_, ?_⟩
  · intro h
    exact ⟨getHHdata_eq_blocked c client hc s y q true ⟨rfl, h⟩,
           getHLdata_eq_blocked c client hc s y q ts true ⟨rfl, h⟩⟩
  · intro h
    have hn : ¬(true = true ∧
        ((product3 s.listify y.listify q.listify).length : Int)
          > c.download_limits) := by
      intro hcontra
      exact absurd hcontra.2 (not_lt.mpr h)
    rw [getHHdata_eq_run c client hc s y q true hn]
    refine ⟨rfl, rfl, ?_, ?_⟩
    · rw [getHLdata_eq_run c client hc s y q false true hn,
        translateHL_false]
      rfl
    · rw [getHLdata_eq_run c client hc s y q ts true hn]
      exact translateHL_calls c.worms_client ts _ _ _ _
  · intro h
    exact getSurveyYearQuarterList_eq_blocked c client hc s y true ⟨rfl, h⟩
  · intro h
    have hn : ¬(true = true ∧
        ((product2 s.listify y.listify).length : Int)
          > c.download_limits) := by
      intro hcontra
      exact absurd hcontra.2 (not_lt.mpr h)
    rw [getSurveyYearQuarterList_eq_run c client hc s y true hn]
    exact ⟨rfl, rfl⟩

/-- C1 witness: three surveys, two years and one quarter make six
combinations, beyond the default limit of five, so `getHHdata` returns
`None` after printing the two limit lines and issuing no call. -/
theorem claim1_limit_gate_witness :
    cFix.getHHdata (.listArg ["a", "b", "c"]) (.listArg [1, 2])
        (.scalar 1) true =
      ⟨none, [limitLine1 5, limitLine2 6], []⟩ := by
  have h := (claim1_limit_gate cFix svcFix rfl (.listArg ["a", "b", "c"])
    (.listArg [1, 2]) (.scalar 1) true).1 (by decide)
  exact h.1



/-- The loop's aggregation is the flat concatenation of exactly the
successful responses, kept in dataset order. -/
theorem flatMap_contrib_eq {κ : Type} (call : κ → CallResult)
    (ds : List κ) :
    ds.flatMap (fun d => (call d).contrib) =
      (ds.filterMap (fun d => (call d).successRows)).flatten := by
  induction ds with
  | nil => rfl
  | cons d ds ih =>
    rw [List.flatMap_cons, List.filterMap_cons]
    cases h : call d with
    | exn => simpa using ih
    | nodata => simpa using ih
    | ok rows =>
      show rows ++ ds.flatMap (fun d => (call d).contrib) =
        (rows :: ds.filterMap (fun d => (call d).successRows)).flatten
      rw [List.flatten_cons, ih]

/-- C2: when `getHHdata` passes the limit check, the table it returns is
(after the per-field cleanup of step (d)) the concatenation, in
iteration order, of the serialized responses of exactly those remote
calls that succeeded with a non-`None` result; each combination's
contribution depends only on that combination's own call outcome, so a
failure of one call has no effect on the others. -/
theorem claim2_concat_successes (c : DATRASClient)
    (client : DatrasService) (hc : c.datras_client = some client)
    (s : PyArg String) (y q : PyArg Int) (lim : Bool)
    (h : ¬(lim = true ∧
      ((product3 s.listify y.listify q.listify).length : Int)
        > c.download_limits)) :
    (c.getHHdata s y q lim).retval =
      some (cleanTable
        (((product3 s.listify y.listify q.listify).filterMap
          (fun d => (client.getHHdata d.1 d.2.1 d.2.2).successRows)).flatten)) := by
  rw [getHHdata_eq_run c client hc s y q lim h]
  rw [← flatMap_contrib_eq]

/-- C2 witness: of three year combinations, 2010 succeeds, 2011 raises
and 2012 returns `None`; the returned table holds exactly the 2010
response, cleaned. -/
theorem claim2_concat_successes_witness :
    (cFix.getHHdata (.scalar "a") (.listArg [2010, 2011, 2012])
        (.scalar 1) true).retval =
      some [[("Survey", Cell.cs "SP-ARSA"), ("Year", Cell.ci 2010)]] := by
  have h := claim2_concat_successes cFix svcFix rfl (.scalar "a")
    (.listArg [2010, 2011, 2012]) (.scalar 1) true (by decide)
  rw [h]
  decide

/-- C3: when `getHHdata` passes the limit check, the remote-call trace is
exactly the cartesian product `survey x year x quarter`: one call per
product element, in order, none skipped after an earlier raise and none
repeated. -/
theorem claim3_one_call_per_combination (c : DATRASClient)
    (client : DatrasService) (hc : c.datras_client = some client)
    (s : PyArg String) (y q : PyArg Int) (lim : Bool)
    (h : ¬(lim = true ∧
      ((product3 s.listify y.listify q.listify).length : Int)
        > c.download_limits)) :
    (c.getHHdata s y q lim).calls =
      product3 s.listify y.listify q.listify := by
  rw [getHHdata_eq_run c client hc s y q lim h]

/-- C3 witness: the 2011 call raises, yet 2012 is still called and every
combination appears exactly once, in product order. -/
theorem claim3_one_call_per_combination_witness :
    (cFix.getHHdata (.scalar "a") (.listArg [2010, 2011, 2012])
        (.scalar 1) true).calls =
      [("a", 2010, 1), ("a", 2011, 1), ("a", 2012, 1)] := by
  rw [claim3_one_call_per_combination cFix svcFix rfl (.scalar "a")
    (.listArg [2010, 2011, 2012]) (.scalar 1) true (by decide)]
  decide

/-- C4 counterexample: an invocation of `getHLdata` with
`translate_sps=True`, a live WORMS client and every fetch raising: the
fetch exceptions are all swallowed, but the aggregated frame is then
empty, so the unguarded `downloaded_data.Valid_Aphia` access raises an
uncaught `AttributeError` (line 220) and no dataframe is returned -
refuting the claim that the partial aggregated dataframe is always
still returned and that failures never propagate. -/
theorem claim4_counterexample :
    (cWorms.getHLdata (.scalar "a") (.scalar 2010) (.scalar 1) true
        true).outcome = PyResult.attrError := by
  decide

/-- C4 (amended): the fetch loop is best-effort - an exception raised
while fetching any one combination is swallowed and counted, the
partial dataframe built from the successful calls is still returned,
and the only surfacing of failures is the printed count line - in
`getHHdata`, `getSurveyYearList`, `getSurveyYearQuarterList`, and in
`getHLdata` except when `translate_sps=True` meets a live WORMS client:
there the WORMS-unavailable case still returns the partial frame (with
one extra informational line), but when the aggregated frame lacks the
`Valid_Aphia` column - as after an all-failing run - the unguarded
attribute access raises an uncaught `AttributeError` and no dataframe
is returned. -/
theorem claim4_best_effort (c : DATRASClient) (client : DatrasService)
    (hc : c.datras_client = some client) (s : PyArg String)
    (y q : PyArg Int) (lim : Bool)
    (h3 : ¬(lim = true ∧
      ((product3 s.listify y.listify q.listify).length : Int)
        > c.download_limits))
    (h2 : ¬(lim = true ∧
      ((product2 s.listify y.listify).length : Int) > c.download_limits)) :
    ((c.getHHdata s y q lim).retval =
        some (cleanTable ((product3 s.listify y.listify q.listify).flatMap
          (fun d => (client.getHHdata d.1 d.2.1 d.2.2).contrib))) ∧
      (c.getHHdata s y q lim).prints =
        [countLineDatasets
          ((product3 s.listify y.listify q.listify).countP
            (fun d => (client.getHHdata d.1 d.2.1 d.2.2).isOk))
          (product3 s.listify y.listify q.listify).length]) ∧
    ((c.getHLdata s y q false lim).outcome =
        PyResult.ret (some
          (cleanTable ((product3 s.listify y.listify q.listify).flatMap
            (fun d => (client.getHLdata d.1 d.2.1 d.2.2).contrib)))) ∧
      (c.getHLdata s y q false lim).prints =
        [countLineDatasets
          ((product3 s.listify y.listify q.listify).countP
            (fun d => (client.getHLdata d.1 d.2.1 d.2.2).isOk))
          (product3 s.listify y.listify q.listify).length]) ∧
    (c.worms_client = none →
      (c.getHLdata s y q true lim).outcome =
        PyResult.ret (some
          (cleanTable ((product3 s.listify y.listify q.listify).flatMap
            (fun d => (client.getHLdata d.1 d.2.1 d.2.2).contrib)))) ∧
      (c.getHLdata s y q true lim).prints =
        [countLineDatasets
          ((product3 s.listify y.listify q.listify).countP
            (fun d => (client.getHLdata d.1 d.2.1 d.2.2).isOk))
          (product3 s.listify y.listify q.listify).length,
         wormsUnavailableLine]) ∧
    (∀ w, c.worms_client = some w →
      hasColumn ((product3 s.listify y.listify q.listify).flatMap
          (fun d => (client.getHLdata d.1 d.2.1 d.2.2).contrib))
          "Valid_Aphia" = false →
      (c.getHLdata s y q true lim).outcome = PyResult.attrError ∧
      (c.getHLdata s y q true lim).prints =
        [countLineDatasets
          ((product3 s.listify y.listify q.listify).countP
            (fun d => (client.getHLdata d.1 d.2.1 d.2.2).isOk))
          (product3 s.listify y.listify q.listify).length]) ∧
    ((c.getSurveyYearList s).retval =
        some (cleanTable (s.listify.flatMap
          (fun d => (client.getSurveyYearList d).contrib))) ∧
      (c.getSurveyYearList s).prints =
        [countLineSurveys
          (s.listify.countP (fun d => (client.getSurveyYearList d).isOk))
          s.listify.length]) ∧
    ((c.getSurveyYearQuarterList s y lim).retval =
        some (cleanTable ((product2 s.listify y.listify).flatMap
          (fun d => (client.getSurveyYearQuarterList d.1 d.2).contrib))) ∧
      (c.getSurveyYearQuarterList s y lim).prints =
        [countLineDatasets
          ((product2 s.listify y.listify).countP
            (fun d => (client.getSurveyYearQuarterList d.1 d.2).isOk))
          (product2 s.listify y.listify).length]) := by
  refine ⟨?_, ?_, ?_, ?_, ?_, ?_⟩
  · rw [getHHdata_eq_run c client hc s y q lim h3]
    exact ⟨rfl, rfl⟩
  · rw [getHLdata_eq_run c client hc s y q false lim h3,
      translateHL_false]
    exact ⟨rfl, rfl⟩
  · intro hw
    rw [getHLdata_eq_run c client hc s y q true lim h3, hw,
      translateHL_true_noworms]
    exact ⟨rfl, rfl⟩
  · intro w hw hcol
    rw [getHLdata_eq_run c client hc s y q true lim h3, hw,
      translateHL_true_nocol w _ _ _ _ hcol]
    exact ⟨rfl, rfl⟩
  · rw [getSurveyYearList_eq_run c client hc s]
    exact ⟨rfl, rfl⟩
  · rw [getSurveyYearQuarterList_eq_run c client hc s y lim h2]
    exact ⟨rfl, rfl⟩

/-- C4 witness: with a raising 2011 call among three combinations,
`getHHdata` still returns a dataframe and prints exactly the count line
`1 out of 3 Datasets downloaded`; and on the all-raising fixture with a
live WORMS client, `getHLdata` with `translate_sps=True` prints the
count line and then ends in the uncaught `AttributeError`. -/
theorem claim4_best_effort_witness :
    (cFix.getHHdata (.scalar "a") (.listArg [2010, 2011, 2012])
        (.scalar 1) true).retval.isSome = true ∧
    (cFix.getHHdata (.scalar "a") (.listArg [2010, 2011, 2012])
        (.scalar 1) true).prints =
      ["1 out of 3 Datasets downloaded"] ∧
    (cWorms.getHLdata (.scalar "a") (.scalar 2010) (.scalar 1) true
        true).outcome = PyResult.attrError ∧
    (cWorms.getHLdata (.scalar "a") (.scalar 2010) (.scalar 1) true
        true).prints = ["0 out of 1 Datasets downloaded"] := by
  have h := (claim4_best_effort cFix svcFix rfl (.scalar "a")
    (.listArg [2010, 2011, 2012]) (.scalar 1) true (by decide)
    (by decide)).1
  have hhl := (claim4_best_effort cWorms svcRaise rfl (.scalar "a")
    (.scalar 2010) (.scalar 1) true (by decide) (by decide)).2.2.2.1
    wormsFix rfl (by decide)
  refine ⟨?_, ?_, ?_, ?_⟩
  · rw [h.1]
    rfl
  · rw [h.2]
    decide
  · exact hhl.1
  · rw [hhl.2]
    decide

/-- C5: the number of datasets a request considers - the count the limit
gate compares with `download_limits` and the total of the printed
summary - is the product of the lengths of the listified inputs:
`len(survey) * len(year) * len(quarter)` for the HH/HL requests and
`len(survey) * len(year)` for `getSurveyYearQuarterList`. -/
theorem claim5_dataset_count (c : DATRASClient) (client : DatrasService)
    (hc : c.datras_client = some client) (s : PyArg String)
    (y q : PyArg Int) :
    (product3 s.listify y.listify q.listify).length =
      s.listify.length * y.listify.length * q.listify.length ∧
    (product2 s.listify y.listify).length =
      s.listify.length * y.listify.length ∧
    (c.getHHdata s y q false).prints =
      [countLineDatasets
        ((product3 s.listify y.listify q.listify).countP
          (fun d => (client.getHHdata d.1 d.2.1 d.2.2).isOk))
        (s.listify.length * y.listify.length * q.listify.length)] ∧
    (c.getHLdata s y q false false).prints =
      [countLineDatasets
        ((product3 s.listify y.listify q.listify).countP
          (fun d => (client.getHLdata d.1 d.2.1 d.2.2).isOk))
        (s.listify.length * y.listify.length * q.listify.length)] ∧
    (c.getSurveyYearQuarterList s y false).prints =
      [countLineDatasets
        ((product2 s.listify y.listify).countP
          (fun d => (client.getSurveyYearQuarterList d.1 d.2).isOk))
        (s.listify.length * y.listify.length)] ∧
    ((s.listify.length * y.listify.length * q.listify.length : Int)
        > c.download_limits →
      (c.getHHdata s y q true).prints =
        [limitLine1 c.download_limits,
         limitLine2
           (s.listify.length * y.listify.length * q.listify.length)]) := by
  have hfalse3 : ¬(false = true ∧
      ((product3 s.listify y.listify q.listify).length : Int)
        > c.download_limits) := by
    intro hco
    exact absurd hco.1 (by decide)
  have hfalse2 : ¬(false = true ∧
      ((product2 s.listify y.listify).length : Int)
        > c.download_limits) := by
    intro hco
    exact absurd hco.1 (by decide)
  refine ⟨length_product3 s.listify y.listify q.listify,
    length_product2 s.listify y.listify, ?_, ?_, ?_, ?_⟩
  · rw [getHHdata_eq_run c client hc s y q false hfalse3,
      length_product3]
  · rw [getHLdata_eq_run c client hc s y q false false hfalse3,
      translateHL_false, length_product3]
  · rw [getSurveyYearQuarterList_eq_run c client hc s y false hfalse2,
      length_product2]
  · intro h
    rw [getHHdata_eq_blocked c client hc s y q true
      ⟨rfl, by rw [length_product3]; exact_mod_cast h⟩, length_product3]

/-- C5 witness: two surveys, three years and two quarters give a printed
total of twelve with `limit_download=False`, and the over-limit message
under `limit_download=True` also reports twelve. -/
theorem claim5_dataset_count_witness :
    (cFix.getHHdata (.listArg ["a", "b"]) (.listArg [1, 2, 3])
        (.listArg [1, 2]) false).prints =
      ["0 out of 12 Datasets downloaded"] ∧
    (cFix.getHHdata (.listArg ["a", "b"]) (.listArg [1, 2, 3])
        (.listArg [1, 2]) true).prints =
      [limitLine1 5, limitLine2 12] := by
  have h := claim5_dataset_count cFix svcFix rfl (.listArg ["a", "b"])
    (.listArg [1, 2, 3]) (.listArg [1, 2])
  refine ⟨?_, ?_⟩
  · rw [h.2.2.1]
    decide
  · rw [h.2.2.2.2.2 (by decide)]
    decide

/-- C7: the cleanup block leaves every field of a non-object column
exactly as it was, and replaces every field of an object-dtype (string)
column by its `str.strip()` form, which removes precisely the leading
and trailing whitespace of the value. -/
theorem claim7_string_cleanup (t : Table) (i j : Nat)
    (p : String × Cell) (hp : cellAt t i j = some p) :
    (isObjectCol t p.1 = false → cellAt (cleanTable t) i j = some p) ∧
    (isObjectCol t p.1 = true → ∀ s, p.2 = Cell.cs s →
      cellAt (cleanTable t) i j = some (p.1, Cell.cs (pyStrip s)) ∧
      stripsWS s (pyStrip s)) := by
  rw [cellAt_cleanTable, hp]
  constructor
  · intro hobj
    have hpair : cleanPair t p = p := by
      unfold cleanPair
      rw [if_neg (by simp [hobj])]
    show some (cleanPair t p) = some p
    rw [hpair]
  · intro hobj s hs
    have hpair : cleanPair t p = (p.1, Cell.cs (pyStrip s)) := by
      unfold cleanPair
      rw [if_pos hobj, hs]
      rfl
    refine ⟨?_, pyStrip_strips s⟩
    show some (cleanPair t p) = some (p.1, Cell.cs (pyStrip s))
    rw [hpair]



/-- C7 witness: in the fixture table the padded string field comes back
stripped to `"X Y"`, the strip relation holding, and the integer field
is untouched. -/
theorem claim7_string_cleanup_witness :
    cellAt (cleanTable tFix) 0 0 = some ("Survey", Cell.cs "X Y") ∧
    stripsWS "  X Y  " "X Y" ∧
    cellAt (cleanTable tFix) 0 1 = some ("Year", Cell.ci 7) := by
  have hstr := (claim7_string_cleanup tFix 0 0 ("Survey", Cell.cs "  X Y  ")
    (by decide)).2 (by decide) "  X Y  " rfl
  have hint := (claim7_string_cleanup tFix 0 1 ("Year", Cell.ci 7)
    (by decide)).1 (by decide)
  have hs : pyStrip "  X Y  " = "X Y" := by decide
  exact ⟨by rw [hstr.1, hs], hs ▸ hstr.2, hint⟩

/-- C8: when construction of the DATRAS SOAP client failed, every
implemented fetch method prints `DATRAS client not set`, returns `None`
and issues no remote call at all. -/
theorem claim8_no_client (c : DATRASClient) (hc : c.datras_client = none)
    (s : PyArg String) (y q : PyArg Int) (ts lim : Bool) :
    c.getHHdata s y q lim = ⟨none, [noClientLine], []⟩ ∧
    c.getHLdata s y q ts lim = ⟨.ret none, [noClientLine], [], []⟩ ∧
    c.getSurveyList = ⟨none, [noClientLine], []⟩ ∧
    c.getSurveyYearList s = ⟨none, [noClientLine], []⟩ ∧
    c.getSurveyYearQuarterList s y lim = ⟨none, [noClientLine], []⟩ :=
  ⟨getHHdata_eq_noclient c hc s y q lim,
   getHLdata_eq_noclient c hc s y q ts lim,
   getSurveyList_eq_noclient c hc,
   getSurveyYearList_eq_noclient c hc s,
   getSurveyYearQuarterList_eq_noclient c hc s y lim⟩

/-- C8 witness: the clientless fixture returns `None` with the single
message and an empty call trace on every method. -/
theorem claim8_no_client_witness :
    cNone.getHHdata (.scalar "a") (.scalar 2010) (.scalar 1) true =
      ⟨none, ["DATRAS client not set"], []⟩ ∧
    cNone.getSurveyList = ⟨none, ["DATRAS client not set"], []⟩ := by
  have h := claim8_no_client cNone rfl (.scalar "a") (.scalar 2010)
    (.scalar 1) true true
  exact ⟨h.1, h.2.2.1⟩

/-- C9: the download-limit threshold is strict and conditional: a
combination count exactly equal to `download_limits` still downloads
under `limit_download=True`, and with `limit_download=False` the gate is
never applied, whatever the count. -/
theorem claim9_strict_threshold (c : DATRASClient)
    (client : DatrasService) (hc : c.datras_client = some client)
    (s : PyArg String) (y q : PyArg Int) :
    (((product3 s.listify y.listify q.listify).length : Int)
        = c.download_limits →
      (c.getHHdata s y q true).retval.isSome = true ∧
      (c.getHHdata s y q true).calls =
        product3 s.listify y.listify q.listify ∧
      (c.getHLdata s y q false true).outcome.returnsFrame = true ∧
      (c.getHLdata s y q false true).calls =
        product3 s.listify y.listify q.listify) ∧
    (((product2 s.listify y.listify).length : Int) = c.download_limits →
      (c.getSurveyYearQuarterList s y true).retval.isSome = true ∧
      (c.getSurveyYearQuarterList s y true).calls =
        product2 s.listify y.listify) ∧
    ((c.getHHdata s y q false).retval.isSome = true ∧
     (c.getHHdata s y q false).calls =
       product3 s.listify y.listify q.listify ∧
     (c.getHLdata s y q false false).outcome.returnsFrame = true ∧
     (c.getHLdata s y q false false).calls =
       product3 s.listify y.listify q.listify ∧
     (c.getSurveyYearQuarterList s y false).retval.isSome = true ∧
     (c.getSurveyYearQuarterList s y false).calls =
       product2 s.listify y.listify) := by
  have hfalse3 : ¬(false = true ∧
      ((product3 s.listify y.listify q.listify).length : Int)
        > c.download_limits) := by
    intro hco
    exact absurd hco.1 (by decide)
  have hfalse2 : ¬(false = true ∧
      ((product2 s.listify y.listify).length : Int)
        > c.download_limits) := by
    intro hco
    exact absurd hco.1 (by decide)
  refine ⟨?_, ?_, ?_⟩
  · intro h
    have hn : ¬(true = true ∧
        ((product3 s.listify y.listify q.listify).length : Int)
          > c.download_limits) := by
      intro hco
      rw [h] at hco
      exact absurd hco.2 (lt_irrefl _)
    rw [getHHdata_eq_run c client hc s y q true hn,
        getHLdata_eq_run c client hc s y q false true hn,
        translateHL_false]
    exact ⟨rfl, rfl, rfl, rfl⟩
  · intro h
    have hn : ¬(true = true ∧
        ((product2 s.listify y.listify).length : Int)
          > c.download_limits) := by
      intro hco
      rw [h] at hco
      exact absurd hco.2 (lt_irrefl _)
    rw [getSurveyYearQuarterList_eq_run c client hc s y true hn]
    exact ⟨rfl, rfl⟩
  · rw [getHHdata_eq_run c client hc s y q false hfalse3,
        getHLdata_eq_run c client hc s y q false false hfalse3,
        translateHL_false,
        getSurveyYearQuarterList_eq_run c client hc s y false hfalse2]
    exact ⟨rfl, rfl, rfl, rfl, rfl, rfl⟩

/-- C9 witness: exactly five combinations equal the default limit of
five, and `getHHdata` downloads them all; twelve combinations pass when
`limit_download=False`. -/
theorem claim9_strict_threshold_witness :
    (cFix.getHHdata (.scalar "a")
        (.listArg [2010, 2011, 2012, 2013, 2014]) (.scalar 1)
        true).retval.isSome = true ∧
    (cFix.getHHdata (.listArg ["a", "b"]) (.listArg [1, 2, 3])
        (.listArg [1, 2]) false).retval.isSome = true := by
  refine ⟨?_, ?_⟩
  · exact ((claim9_strict_threshold cFix svcFix rfl (.scalar "a")
      (.listArg [2010, 2011, 2012, 2013, 2014]) (.scalar 1)).1
        (by decide)).1
  · exact (claim9_strict_threshold cFix svcFix rfl (.listArg ["a", "b"])
      (.listArg [1, 2, 3]) (.listArg [1, 2])).2.2.1

/-- C10: passing a scalar for `survey`, `year` or `quarter` is
equivalent to passing the singleton list holding it: the invocation has
the same returned value, the same prints and the same remote calls, in
`getHHdata`, `getHLdata`, `getSurveyYearList` and
`getSurveyYearQuarterList`, whatever the client state. -/
theorem claim10_scalar_singleton (c : DATRASClient) (x : String)
    (y z : Int) (ts lim : Bool) :
    c.getHHdata (.scalar x) (.scalar y) (.scalar z) lim =
      c.getHHdata (.listArg [x]) (.listArg [y]) (.listArg [z]) lim ∧
    c.getHLdata (.scalar x) (.scalar y) (.scalar z) ts lim =
      c.getHLdata (.listArg [x]) (.listArg [y]) (.listArg [z]) ts lim ∧
    c.getSurveyYearList (.scalar x) =
      c.getSurveyYearList (.listArg [x]) ∧
    c.getSurveyYearQuarterList (.scalar x) (.scalar y) lim =
      c.getSurveyYearQuarterList (.listArg [x]) (.listArg [y]) lim :=
  ⟨rfl, rfl, rfl, rfl⟩
